import Mathlib

/-!
Shallow embedding of the BS-Context-Menu core (`bsContextMenu.js`):
the geometry adjuster `adjustMenuPosition`, the focus navigator
`focusNextItem`, and the menu state machine (`showMenu`, `hideActiveMenu`,
`handleContextMenu`, `handleClickOutside`, `handleKeyDown`), together with
theorems settling the spec's claims about them.

DOM elements are represented by natural-number identities; client
coordinates and viewport sizes are integers; the lifecycle notifications
(`show.bs.contextmenu`, `hide.bs.contextmenu`) are recorded in an output
list rather than dispatched.
-/

namespace BSContextMenu

/-! ## Geometry Adjuster (source: `adjustMenuPosition`)

The source corrects each axis independently:
`if (x + rect.width > viewportWidth) newX = Math.max(0, viewportWidth - rect.width - 5)`
and symmetrically for `y`. -/

/-- One axis of `adjustMenuPosition`: position `pos`, measured box `size`,
viewport extent `viewport`. -/
def adjustAxis (pos size viewport : Int) : Int :=
  if pos + size > viewport then max 0 (viewport - size - 5) else pos

/-- Source `adjustMenuPosition` (source lines 220-238): returns the corrected
`(newX, newY)` the source writes back into `menu.style`. -/
def adjustMenuPosition (x y rectW rectH viewportW viewportH : Int) : Int × Int :=
  (adjustAxis x rectW viewportW, adjustAxis y rectH viewportH)

/-! ## Focus Navigator (source: `focusNextItem`) -/

/-- A `.dropdown-item` element: its identity and whether it carries the
`.disabled` class / `:disabled` state. -/
structure MenuItem where
  id : Nat
  disabled : Bool
deriving DecidableEq

/-- The node list `querySelectorAll('.dropdown-item:not(.disabled):not(:disabled)')`:
the menu's items with the disabled ones filtered out, in document order. -/
def enabledItems (items : List MenuItem) : List MenuItem :=
  items.filter (fun it => !it.disabled)

/-- JavaScript `Array.prototype.indexOf` over element identities:
the first index of `x` in `l`, or `-1` when absent. -/
def jsIndexOf (l : List Nat) (x : Nat) : Int :=
  if x ∈ l then (List.indexOf x l : Int) else -1

/-- Source `focusNextItem` (source lines 324-342). `focused` is the identity of
`document.activeElement` when it is an element we track, else `none`.
Returns the item that receives focus, or `none` when no focus moves
(empty enabled list, or an out-of-range index — JS `items[nextIndex]?.`). -/
def focusNextItem (items : List MenuItem) (direction : Int) (focused : Option Nat) :
    Option MenuItem :=
  let enabled := enabledItems items
  if enabled.length = 0 then none
  else
    let currentIndex : Int :=
      match focused with
      | none => -1
      | some fid => jsIndexOf (enabled.map MenuItem.id) fid
    let nextIndex : Int :=
      if currentIndex = -1 then
        if direction = 1 then 0 else (enabled.length : Int) - 1
      else
        Int.tmod (currentIndex + direction + (enabled.length : Int)) (enabled.length : Int)
    if nextIndex < 0 then none else enabled[nextIndex.toNat]?

/-- Focus evolution under `focusNextItem`: the returned item (if any)
becomes `document.activeElement`; otherwise focus is unchanged. -/
def stepFocus (items : List MenuItem) (direction : Int) (focused : Option Nat) : Option Nat :=
  match focusNextItem items direction focused with
  | some it => some it.id
  | none => focused

/-! ## Menu State Machine state and events -/

/-- The module-level mutable state: `activeMenu`, the
`_bsContextMenuTrigger` property of the active menu, and
`lastRightClickedElement` (the toggle-memory slot). -/
structure MState where
  activeMenu : Option Nat
  activeTrigger : Option Nat
  lastRightClickedElement : Option Nat
deriving DecidableEq

/-- A dispatched lifecycle notification. -/
inductive Notif where
  /-- Event `show.bs.contextmenu` on `menu` with detail `{trigger, x, y}`. -/
  | shown (menu trigger : Nat) (x y : Int)
  /-- Event `hide.bs.contextmenu` on `menu` with detail `{trigger}`. -/
  | hidden (menu : Nat) (trigger : Option Nat)
deriving DecidableEq

/-- The document fragments the handlers consult: `getElementById` as an
association list, and the set of elements carrying the `context-menu`
class. -/
structure Doc where
  byId : List (String × Nat)
  contextMenuClass : List Nat
deriving DecidableEq

/-- Lookup `document.getElementById` over the association list. -/
def getElementById (doc : Doc) (domId : String) : Option Nat :=
  (doc.byId.find? (fun p => p.1 = domId)).map (fun p => p.2)

/-- A `contextmenu` event as the handler perceives it:
`event.target.closest('[data-bs-context-menu]')` (already resolved to the
nearest enclosing bound trigger, or `none`), that trigger's attribute
value, and the pointer's client coordinates. -/
structure CMEvent where
  closestTrigger : Option Nat
  attrValue : String
  clientX : Int
  clientY : Int
deriving DecidableEq

/-- A `click` event as `handleClickOutside` perceives it. The last two
fields describe the clicked item (whether it is an anchor with a real
destination, and whether it has a registered activation callback); the
source handler never consults them. -/
structure ClickEvent where
  insideActiveMenu : Bool
  onDropdownItem : Bool
  isNavigableLink : Bool
  hasCallback : Bool
deriving DecidableEq

/-- Result of running a handler: the new module state, the notifications
dispatched (in order), and whether `event.preventDefault()` was called. -/
structure HandlerOut where
  state : MState
  notifs : List Notif
  prevented : Bool
deriving DecidableEq

/-! ## State machine operations -/

/-- Source `hideActiveMenu` (source lines 243-260): no-op when no menu is active;
otherwise clears the expanded flag, refocuses the trigger, removes the
`show` class, dispatches `hide.bs.contextmenu` with `{trigger}`, and nulls
both the trigger property and `activeMenu`. It does not touch
`lastRightClickedElement`. -/
def hideActiveMenu (s : MState) : MState × List Notif :=
  match s.activeMenu with
  | none => (s, [])
  | some m =>
      ({ activeMenu := none, activeTrigger := none,
         lastRightClickedElement := s.lastRightClickedElement },
       [Notif.hidden m s.activeTrigger])

/-- Source `showMenu` (source lines 188-212): installs `menu` as active, records
the trigger on it, and dispatches `show.bs.contextmenu` with
`{trigger, x, y}`. The deferred `requestAnimationFrame` body is modelled
separately as `rafCallback`. -/
def showMenu (s : MState) (menu : Nat) (x y : Int) (trigger : Nat) : MState × List Notif :=
  ({ activeMenu := some menu, activeTrigger := some trigger,
     lastRightClickedElement := s.lastRightClickedElement },
   [Notif.shown menu trigger x y])

/-- Source `handleContextMenu` (source lines 154-179). Unbound target: clear the
toggle slot and fall through to native handling. Bound target resolving to
a valid menu: if the toggle slot already holds this trigger, clear it and
hide (native menu allowed through); otherwise record the trigger, prevent
default, hide whatever was open, and show. -/
def handleContextMenu (doc : Doc) (s : MState) (e : CMEvent) : HandlerOut :=
  match e.closestTrigger with
  | none =>
      { state := { s with lastRightClickedElement := none }, notifs := [], prevented := false }
  | some trigger =>
      if e.attrValue = "" then { state := s, notifs := [], prevented := false }
      else
        match getElementById doc e.attrValue with
        | none => { state := s, notifs := [], prevented := false }
        | some menu =>
            if menu ∈ doc.contextMenuClass then
              if s.lastRightClickedElement = some trigger then
                let h := hideActiveMenu { s with lastRightClickedElement := none }
                { state := h.1, notifs := h.2, prevented := false }
              else
                let h := hideActiveMenu { s with lastRightClickedElement := some trigger }
                let sh := showMenu h.1 menu e.clientX e.clientY trigger
                { state := sh.1, notifs := h.2 ++ sh.2, prevented := true }
            else { state := s, notifs := [], prevented := false }

/-- Source `handleClickOutside` (source lines 267-282): with no active menu,
nothing happens. A click inside the active menu hides it only when it
lands on a `.dropdown-item` (with `preventDefault`); clicks elsewhere
inside the menu return early. A click outside clears the toggle slot and
hides. -/
def handleClickOutside (s : MState) (e : ClickEvent) : HandlerOut :=
  match s.activeMenu with
  | none => { state := s, notifs := [], prevented := false }
  | some _ =>
      if e.insideActiveMenu then
        if e.onDropdownItem then
          let h := hideActiveMenu { s with lastRightClickedElement := none }
          { state := h.1, notifs := h.2, prevented := true }
        else { state := s, notifs := [], prevented := false }
      else
        let h := hideActiveMenu { s with lastRightClickedElement := none }
        { state := h.1, notifs := h.2, prevented := false }

/-- The scroll and resize listeners (source lines 29-30) are
`hideActiveMenu` itself, registered directly; the event argument is
ignored. -/
def handleScrollOrResize (s : MState) : MState × List Notif :=
  hideActiveMenu s

/-- A `keydown` event as `handleKeyDown` perceives it. -/
structure KeyEvent where
  key : String
  shiftKey : Bool
  activeElementIsDropdownItem : Bool
deriving DecidableEq

/-- Result of `handleKeyDown`: new state, notifications, whether default
was prevented, the item focus moved to (if any), and whether a synthetic
click was dispatched to the active element (Enter/Space). -/
structure KeyOut where
  state : MState
  notifs : List Notif
  prevented : Bool
  focusTarget : Option MenuItem
  clickDispatched : Bool
deriving DecidableEq

/-- Source `handleKeyDown` (source lines 289-318). `items` is the active menu's
`.dropdown-item` list and `focused` the current `document.activeElement`. -/
def handleKeyDown (s : MState) (items : List MenuItem) (focused : Option Nat)
    (e : KeyEvent) : KeyOut :=
  match s.activeMenu with
  | none => { state := s, notifs := [], prevented := false, focusTarget := none,
              clickDispatched := false }
  | some _ =>
      if e.key = "Escape" then
        let h := hideActiveMenu s
        { state := h.1, notifs := h.2, prevented := true, focusTarget := none,
          clickDispatched := false }
      else if e.key = "ArrowDown" then
        { state := s, notifs := [], prevented := true,
          focusTarget := focusNextItem items 1 focused, clickDispatched := false }
      else if e.key = "ArrowUp" then
        { state := s, notifs := [], prevented := true,
          focusTarget := focusNextItem items (-1) focused, clickDispatched := false }
      else if e.key = "Enter" ∨ e.key = " " then
        if e.activeElementIsDropdownItem then
          { state := s, notifs := [], prevented := true, focusTarget := none,
            clickDispatched := true }
        else
          { state := s, notifs := [], prevented := false, focusTarget := none,
            clickDispatched := false }
      else if e.key = "Tab" then
        { state := s, notifs := [], prevented := true,
          focusTarget := focusNextItem items (if e.shiftKey then -1 else 1) focused,
          clickDispatched := false }
      else
        { state := s, notifs := [], prevented := false, focusTarget := none,
          clickDispatched := false }

/-! ## The deferred placement-and-focus callback -/

/-- What the `requestAnimationFrame` callback scheduled in `showMenu`
observes when it finally runs: the menu's measured box
(`getBoundingClientRect`), the viewport, and the first enabled
`.dropdown-item` found by `querySelector`, if any. -/
structure RafEnv where
  rectW : Int
  rectH : Int
  viewportW : Int
  viewportH : Int
  firstEnabledItem : Option Nat
deriving DecidableEq

/-- Observable effects of the deferred callback: the position written into
`menu.style` and the element whose `focus()` was invoked. -/
structure RafOut where
  newPos : Int × Int
  focusCalledOn : Option Nat
deriving DecidableEq

/-- The `requestAnimationFrame` body of `showMenu` (source lines 199-206).
`currentActive` is the `activeMenu` slot at the moment the callback fires
— the identity the spec says the callback re-checks before acting. The
source callback never reads it: it unconditionally calls
`adjustMenuPosition(menu, x, y)` and focuses the first enabled item. -/
def rafCallback (currentActive : Option Nat) (menu : Nat) (x y : Int) (env : RafEnv) :
    RafOut :=
  { newPos := adjustMenuPosition x y env.rectW env.rectH env.viewportW env.viewportH,
    focusCalledOn := env.firstEnabledItem }

/-! ## Claims about the Geometry Adjuster -/

/-- Claim C5, counterexample. The claim asserts that whenever the box
overflows the right edge the returned coordinate satisfies
`x + width ≤ viewport width` with exactly a 5-unit inset. At anchor
`x = 900` with `width = 1200` in a viewport of width `1000` the box
overflows (`2100 > 1000`), but `Math.max(0, 1000 - 1200 - 5)` clamps the
result to `0`, whose edge sum `1200` exceeds the viewport, and the inset
is not 5. -/
theorem adjustAxis_overflow_edge_sum_fails :
    (900 : Int) + 1200 > 1000 ∧
    adjustAxis 900 1200 1000 = 0 ∧
    ¬ (adjustAxis 900 1200 1000 + 1200 ≤ 1000) := by decide

/-- Claim C5, amended. When the box overflows an axis, the returned
coordinate is never negative; when additionally the box plus the 5-unit
inset fits in the viewport (`size + 5 ≤ viewport`), the coordinate is
exactly `viewport - size - 5`, so the edge sum is `viewport - 5 ≤ viewport`
with exactly a 5-unit inset; when `size + 5 > viewport` the
`Math.max(0, ...)` clamp returns `0` instead, where (as the counterexample
shows) the edge-sum bound and the 5-unit inset can fail. In particular
anchor `x = 990` with `width = 150` in a 1000-wide viewport yields
`x = 845`. -/
theorem adjustAxis_overflow_clamped (x w vw : Int) (hov : x + w > vw) :
    0 ≤ adjustAxis x w vw ∧
    (w + 5 ≤ vw →
      adjustAxis x w vw = vw - w - 5 ∧
      adjustAxis x w vw + w = vw - 5 ∧
      adjustAxis x w vw + w ≤ vw) ∧
    (vw < w + 5 → adjustAxis x w vw = 0) ∧
    (adjustMenuPosition 990 10 150 20 1000 800).1 = 845 := by
  rw [adjustAxis, if_pos hov]
  refine ⟨le_max_left 0 _, fun hfit => ?_, fun hbig => max_eq_left (by omega), by decide⟩
  have hmax : max (0 : Int) (vw - w - 5) = vw - w - 5 := max_eq_right (by omega)
  refine ⟨hmax, by omega, by omega⟩

/-- Witness for `adjustAxis_overflow_clamped` at `x = 990`, `w = 150`,
`vw = 1000`. -/
theorem adjustAxis_overflow_clamped_witness :
    0 ≤ adjustAxis 990 150 1000 ∧
    ((150 : Int) + 5 ≤ 1000 →
      adjustAxis 990 150 1000 = 1000 - 150 - 5 ∧
      adjustAxis 990 150 1000 + 150 = 1000 - 5 ∧
      adjustAxis 990 150 1000 + 150 ≤ 1000) ∧
    ((1000 : Int) < 150 + 5 → adjustAxis 990 150 1000 = 0) ∧
    (adjustMenuPosition 990 10 150 20 1000 800).1 = 845 :=
  adjustAxis_overflow_clamped 990 150 1000 (by decide)

/-- Claim C6, counterexample. The claim asserts that a zero measured size
is treated as nothing-to-correct for every anchor point. At anchor
`(1500, 10)` with size `(0, 0)` in a `1000 × 800` viewport, the x-axis
test `1500 + 0 > 1000` fires and the result is `(995, 10)`, not the
anchor. -/
theorem adjustMenuPosition_zero_size_not_as_is :
    adjustMenuPosition 1500 10 0 0 1000 800 = (995, 10) ∧
    adjustMenuPosition 1500 10 0 0 1000 800 ≠ (1500, 10) := by decide

/-- Claim C6, amended. Whenever the box fits within the viewport from the
anchor (`x + w ≤ vw` and `y + h ≤ vh`), the adjuster returns the anchor
unchanged; a zero measured size is therefore left as-is exactly when the
anchor itself lies within the viewport (`x ≤ vw`, `y ≤ vh`) — an anchor
beyond the viewport is still corrected even with zero size. -/
theorem adjustMenuPosition_fits_unchanged (x y w h vw vh : Int)
    (hx : x + w ≤ vw) (hy : y + h ≤ vh) :
    adjustMenuPosition x y w h vw vh = (x, y) := by
  rw [adjustMenuPosition, adjustAxis, adjustAxis, if_neg (by omega), if_neg (by omega)]

/-- Witness for `adjustMenuPosition_fits_unchanged` at anchor `(100, 50)`,
size `(150, 200)`, viewport `1000 × 800` (and, for the zero-size reading,
at anchor `(100, 50)` with size `(0, 0)`). -/
theorem adjustMenuPosition_fits_unchanged_witness :
    adjustMenuPosition 100 50 150 200 1000 800 = (100, 50) ∧
    adjustMenuPosition 100 50 0 0 1000 800 = (100, 50) :=
  ⟨adjustMenuPosition_fits_unchanged 100 50 150 200 1000 800 (by decide) (by decide),
   adjustMenuPosition_fits_unchanged 100 50 0 0 1000 800 (by decide) (by decide)⟩

/-! ## Claims about hide and outside clicks -/

/-- Claim C9: `hideActiveMenu` is idempotent. After any call the state is
`Closed` (`activeMenu = none`); a second call changes nothing and emits no
notification; and a call when no menu is active (including when none was
ever opened) is a complete no-op with no notification. -/
theorem hideActiveMenu_idempotent (s : MState) :
    (hideActiveMenu s).1.activeMenu = none ∧
    hideActiveMenu (hideActiveMenu s).1 = ((hideActiveMenu s).1, []) ∧
    (s.activeMenu = none → hideActiveMenu s = (s, [])) := by
  rcases s with ⟨am, tr, lr⟩
  cases am <;> simp [hideActiveMenu]

/-- Witness for `hideActiveMenu_idempotent` at the never-opened state. -/
theorem hideActiveMenu_idempotent_witness :
    (MState.mk none none none).activeMenu = none ∧
    hideActiveMenu ⟨none, none, none⟩ = (⟨none, none, none⟩, []) :=
  ⟨rfl, (hideActiveMenu_idempotent ⟨none, none, none⟩).2.2 rfl⟩

/-- Claim C10: a primary-click whose target lies inside the open menu but
not on a `.dropdown-item` (header, divider, padding) makes the handler
return early: same state (menu still open, toggle slot untouched), no
notification, no `preventDefault`. -/
theorem handleClickOutside_non_item_inside_noop (s : MState) (m : Nat) (e : ClickEvent)
    (hm : s.activeMenu = some m) (hin : e.insideActiveMenu = true)
    (hitem : e.onDropdownItem = false) :
    handleClickOutside s e = { state := s, notifs := [], prevented := false } := by
  simp [handleClickOutside, hm, hin, hitem]

/-- Witness for `handleClickOutside_non_item_inside_noop`: menu 5 open,
click on a divider region inside it. -/
theorem handleClickOutside_non_item_inside_noop_witness :
    handleClickOutside ⟨some 5, some 1, some 1⟩
        ⟨true, false, false, false⟩ =
      { state := ⟨some 5, some 1, some 1⟩, notifs := [], prevented := false } :=
  handleClickOutside_non_item_inside_noop ⟨some 5, some 1, some 1⟩ 5
    ⟨true, false, false, false⟩ rfl rfl rfl

/-! ## Toggle arbitration claims -/

/-- A one-menu document used by concrete scenarios: element 5 is the menu
container registered under id `"m1"` and carrying the `context-menu`
class; element 1 is a trigger bound to it. -/
def docOne : Doc := { byId := [("m1", 5)], contextMenuClass := [5] }

/-- Claim C1: two consecutive secondary-clicks on the same bound trigger
`t` resolving to a valid menu `m`, with no intervening hide or outside
click. After the first event the menu is open with `t` as trigger, the
toggle slot holds `t`, and default handling is prevented; after the second
event the menu is closed, default handling is NOT prevented, and the
toggle slot is cleared. -/
theorem handleContextMenu_toggle_pair (doc : Doc) (s : MState) (t m : Nat)
    (e1 e2 : CMEvent)
    (ht1 : e1.closestTrigger = some t) (ht2 : e2.closestTrigger = some t)
    (hv1 : e1.attrValue ≠ "") (hv2 : e2.attrValue = e1.attrValue)
    (hm : getElementById doc e1.attrValue = some m)
    (hc : m ∈ doc.contextMenuClass)
    (hfresh : s.lastRightClickedElement ≠ some t) :
    (handleContextMenu doc s e1).state.activeMenu = some m ∧
    (handleContextMenu doc s e1).state.activeTrigger = some t ∧
    (handleContextMenu doc s e1).state.lastRightClickedElement = some t ∧
    (handleContextMenu doc s e1).prevented = true ∧
    (handleContextMenu doc (handleContextMenu doc s e1).state e2).state.activeMenu = none ∧
    (handleContextMenu doc (handleContextMenu doc s e1).state e2).state.activeTrigger
      = none ∧
    (handleContextMenu doc (handleContextMenu doc s e1).state
        e2).state.lastRightClickedElement = none ∧
    (handleContextMenu doc (handleContextMenu doc s e1).state e2).prevented = false := by
  have h1 : (handleContextMenu doc s e1).state = ⟨some m, some t, some t⟩ ∧
      (handleContextMenu doc s e1).prevented = true := by
    cases hA : s.activeMenu <;>
      simp [handleContextMenu, ht1, hv1, hm, hc, hfresh, hideActiveMenu, showMenu, hA]
  rw [h1.1]
  refine ⟨rfl, rfl, rfl, h1.2, ?_, ?_, ?_, ?_⟩ <;>
    simp [handleContextMenu, ht2, hv2, hv1, hm, hc, hideActiveMenu]

/-- Witness for `handleContextMenu_toggle_pair`: trigger 1 bound to menu 5
in `docOne`, secondary-clicked at `(100, 50)` and then at `(110, 60)`. -/
theorem handleContextMenu_toggle_pair_witness :
    (handleContextMenu docOne ⟨none, none, none⟩
        ⟨some 1, "m1", 100, 50⟩).state.activeMenu = some 5 ∧
    (handleContextMenu docOne ⟨none, none, none⟩
        ⟨some 1, "m1", 100, 50⟩).state.activeTrigger = some 1 ∧
    (handleContextMenu docOne ⟨none, none, none⟩
        ⟨some 1, "m1", 100, 50⟩).state.lastRightClickedElement = some 1 ∧
    (handleContextMenu docOne ⟨none, none, none⟩
        ⟨some 1, "m1", 100, 50⟩).prevented = true ∧
    (handleContextMenu docOne (handleContextMenu docOne ⟨none, none, none⟩
        ⟨some 1, "m1", 100, 50⟩).state ⟨some 1, "m1", 110, 60⟩).state.activeMenu = none ∧
    (handleContextMenu docOne (handleContextMenu docOne ⟨none, none, none⟩
        ⟨some 1, "m1", 100, 50⟩).state ⟨some 1, "m1", 110, 60⟩).state.activeTrigger
      = none ∧
    (handleContextMenu docOne (handleContextMenu docOne ⟨none, none, none⟩
        ⟨some 1, "m1", 100, 50⟩).state
        ⟨some 1, "m1", 110, 60⟩).state.lastRightClickedElement = none ∧
    (handleContextMenu docOne (handleContextMenu docOne ⟨none, none, none⟩
        ⟨some 1, "m1", 100, 50⟩).state ⟨some 1, "m1", 110, 60⟩).prevented = false :=
  handleContextMenu_toggle_pair docOne ⟨none, none, none⟩ 1 5
    ⟨some 1, "m1", 100, 50⟩ ⟨some 1, "m1", 110, 60⟩
    rfl rfl (by decide) rfl (by decide) (by decide) (by decide)

/-- Claim C2, counterexample. From the initial state, a secondary-click on
trigger 1 (bound to menu 5) reaches the open state with toggle slot
`some 1`; the scroll/resize listener — `hideActiveMenu` itself — then
performs a hide transition to `Closed` that leaves the toggle-memory slot
still holding trigger 1, refuting "cleared on every hide transition" and
"at no reachable state does a hide leave the slot holding a trigger". -/
theorem scroll_hide_leaves_toggle_memory :
    (handleContextMenu docOne ⟨none, none, none⟩ ⟨some 1, "m1", 100, 50⟩).state =
      ⟨some 5, some 1, some 1⟩ ∧
    (handleScrollOrResize ⟨some 5, some 1, some 1⟩).1.activeMenu = none ∧
    (handleScrollOrResize ⟨some 5, some 1, some 1⟩).1.lastRightClickedElement = some 1 := by
  decide

/-- Claim C2, amended. The toggle-memory slot is set only by the
secondary-click handler immediately before a show; it is cleared by an
outside primary-click, by a menu-item activation, and by a secondary-click
on an unbound element — but `hideActiveMenu` itself never touches it, so
hides caused by scroll, resize, or Escape leave the slot holding the last
trigger. -/
theorem lastRightClicked_discipline (s : MState) (m : Nat) (e : ClickEvent)
    (doc : Doc) (ec : CMEvent) (items : List MenuItem) (focused : Option Nat)
    (k : KeyEvent) :
    (hideActiveMenu s).1.lastRightClickedElement = s.lastRightClickedElement ∧
    (handleScrollOrResize s).1.lastRightClickedElement = s.lastRightClickedElement ∧
    (k.key = "Escape" →
      (handleKeyDown s items focused k).state.lastRightClickedElement =
        s.lastRightClickedElement) ∧
    (s.activeMenu = some m → e.insideActiveMenu = false →
      (handleClickOutside s e).state.lastRightClickedElement = none) ∧
    (s.activeMenu = some m → e.insideActiveMenu = true → e.onDropdownItem = true →
      (handleClickOutside s e).state.lastRightClickedElement = none) ∧
    (ec.closestTrigger = none →
      (handleContextMenu doc s ec).state.lastRightClickedElement = none) := by
  refine ⟨?_, ?_, fun hk => ?_, fun h1 h2 => ?_, fun h1 h2 h3 => ?_, fun h => ?_⟩
  · cases hA : s.activeMenu <;> simp [hideActiveMenu, hA]
  · cases hA : s.activeMenu <;> simp [handleScrollOrResize, hideActiveMenu, hA]
  · cases hA : s.activeMenu <;> simp [handleKeyDown, hk, hideActiveMenu, hA]
  · simp [handleClickOutside, h1, h2, hideActiveMenu]
  · simp [handleClickOutside, h1, h2, h3, hideActiveMenu]
  · simp [handleContextMenu, h]

/-- Witness for `lastRightClicked_discipline` at the open state
`⟨some 5, some 1, some 1⟩`, an outside click, an item click, an unbound
secondary-click, and an Escape key press. -/
theorem lastRightClicked_discipline_witness :
    (hideActiveMenu ⟨some 5, some 1, some 1⟩).1.lastRightClickedElement = some 1 ∧
    (handleScrollOrResize ⟨some 5, some 1, some 1⟩).1.lastRightClickedElement = some 1 ∧
    (handleKeyDown ⟨some 5, some 1, some 1⟩ [] none
        ⟨"Escape", false, false⟩).state.lastRightClickedElement = some 1 ∧
    (handleClickOutside ⟨some 5, some 1, some 1⟩
        ⟨false, false, false, false⟩).state.lastRightClickedElement = none ∧
    (handleClickOutside ⟨some 5, some 1, some 1⟩
        ⟨true, true, false, true⟩).state.lastRightClickedElement = none ∧
    (handleContextMenu docOne ⟨some 5, some 1, some 1⟩
        ⟨none, "", 0, 0⟩).state.lastRightClickedElement = none := by
  have h := lastRightClicked_discipline ⟨some 5, some 1, some 1⟩ 5
    ⟨false, false, false, false⟩ docOne ⟨none, "", 0, 0⟩ [] none
    ⟨"Escape", false, false⟩
  have h' := lastRightClicked_discipline ⟨some 5, some 1, some 1⟩ 5
    ⟨true, true, false, true⟩ docOne ⟨none, "", 0, 0⟩ [] none
    ⟨"Escape", false, false⟩
  exact ⟨h.1, h.2.1, h.2.2.1 rfl, h.2.2.2.1 rfl rfl, h'.2.2.2.2.1 rfl rfl rfl,
    h.2.2.2.2.2 rfl⟩

/-- Claim C3 (the code lacks the claimed staleness guard), behaviour at
the failing input: the menu has already been hidden when the deferred
callback fires (`currentActive = none`, measured rect zero), yet the
callback is not a no-op — it still writes a position and still calls
`focus()` on the first enabled item (element 7). The source callback never
compares `menu` against the current `activeMenu`. -/
theorem rafCallback_after_hide_not_noop :
    rafCallback none 5 100 60 ⟨0, 0, 1000, 800, some 7⟩ =
      { newPos := (100, 60), focusCalledOn := some 7 } ∧
    (rafCallback none 5 100 60 ⟨0, 0, 1000, 800, some 7⟩).focusCalledOn ≠ none := by
  decide

/-- Claim C4, counterexample. A primary-click on a `.dropdown-item` that
is a navigable link with no registered callback (`isNavigableLink = true`,
`hasCallback = false`) inside the open menu: the handler calls
`event.preventDefault()` unconditionally, so the link's default navigation
is suppressed, refuting "the handler does not prevent the event's default
action". -/
theorem item_link_click_prevents_default :
    (ClickEvent.mk true true true false).isNavigableLink = true ∧
    (ClickEvent.mk true true true false).hasCallback = false ∧
    (handleClickOutside ⟨some 5, some 1, some 1⟩
        ⟨true, true, true, false⟩).prevented = true := by
  decide

/-- Claim C4, amended. A primary-click on an item inside the open menu
clears the toggle-memory slot, performs `hide()` (one `hidden`
notification), and prevents the event's default action — so a navigable
link's default navigation does not fire; only a registered activation
callback (which `preventDefault` does not stop) still runs. -/
theorem handleClickOutside_item_click (s : MState) (m : Nat) (e : ClickEvent)
    (hm : s.activeMenu = some m) (hin : e.insideActiveMenu = true)
    (hit : e.onDropdownItem = true) :
    handleClickOutside s e =
      { state := ⟨none, none, none⟩,
        notifs := [Notif.hidden m s.activeTrigger],
        prevented := true } := by
  simp [handleClickOutside, hm, hin, hit, hideActiveMenu]

/-- Witness for `handleClickOutside_item_click`: menu 5 open from
trigger 1, click on a navigable-link item without callback. -/
theorem handleClickOutside_item_click_witness :
    handleClickOutside ⟨some 5, some 1, some 1⟩ ⟨true, true, true, false⟩ =
      { state := ⟨none, none, none⟩,
        notifs := [Notif.hidden 5 (some 1)],
        prevented := true } :=
  handleClickOutside_item_click ⟨some 5, some 1, some 1⟩ 5
    ⟨true, true, true, false⟩ rfl rfl rfl

/-! ## Focus Navigator claims -/

/-- On a list whose items are all enabled, the disabled-filter is the
identity. -/
lemma enabledItems_of_all_enabled {items : List MenuItem}
    (hall : ∀ it ∈ items, it.disabled = false) : enabledItems items = items :=
  List.filter_eq_self.mpr fun it hit => by simp [hall it hit]

/-- Whatever `focusNextItem` returns was drawn from the enabled-only node
list. -/
lemma focusNextItem_mem_enabled {items : List MenuItem} {direction : Int}
    {focused : Option Nat} {it : MenuItem}
    (h : focusNextItem items direction focused = some it) :
    it ∈ enabledItems items := by
  simp only [focusNextItem] at h
  repeat' split at h
  all_goals first
    | exact List.getElem?_mem h
    | simp at h

/-- Claim C8: on a list of `N ≥ 1` enabled items with focus on no list
item, direction `+1` selects index `0` and direction `-1` selects index
`N - 1`; and for every list, direction and focus owner, a disabled item is
never the returned focus target. -/
theorem focusNextItem_endpoints_and_disabled (items : List MenuItem) (direction : Int)
    (focused : Option Nat) :
    ((∀ it ∈ items, it.disabled = false) → 0 < items.length →
      focusNextItem items 1 none = items[0]? ∧
      focusNextItem items (-1) none = items[items.length - 1]?) ∧
    (∀ it, focusNextItem items direction focused = some it → it.disabled = false) := by
  constructor
  · intro hall hlen
    have hEn : enabledItems items = items := enabledItems_of_all_enabled hall
    have hne : ¬ items.length = 0 := by omega
    constructor
    · simp [focusNextItem, hEn, hne]
    · have hnlt : ¬ ((items.length : Int) - 1 < 0) := by omega
      have ht : ((items.length : Int) - 1).toNat = items.length - 1 := by omega
      simp [focusNextItem, hEn, hne, hnlt, ht]
  · intro it hres
    have := (List.mem_filter.mp (focusNextItem_mem_enabled hres)).2
    simpa using this

/-- Witness for `focusNextItem_endpoints_and_disabled` on a two-item
all-enabled list with focus outside the list, and the disabled-exclusion
part instantiated at the item the call actually returns. -/
theorem focusNextItem_endpoints_witness :
    (focusNextItem [⟨3, false⟩, ⟨4, false⟩] 1 none =
        [MenuItem.mk 3 false, MenuItem.mk 4 false][0]? ∧
      focusNextItem [⟨3, false⟩, ⟨4, false⟩] (-1) none =
        [MenuItem.mk 3 false, MenuItem.mk 4 false][([MenuItem.mk 3 false,
          MenuItem.mk 4 false].length - 1)]?) ∧
    (MenuItem.mk 3 false).disabled = false :=
  ⟨(focusNextItem_endpoints_and_disabled [⟨3, false⟩, ⟨4, false⟩] 1 none).1
      (by decide) (by decide),
   (focusNextItem_endpoints_and_disabled [⟨3, false⟩, ⟨4, false⟩] 1 none).2
      ⟨3, false⟩ (by decide)⟩

/-- A two-item, all-enabled menu used by the focus-cycling scenarios. -/
def itemsTwo : List MenuItem := [⟨0, false⟩, ⟨1, false⟩]

/-- Claim C7, counterexample. On a list of `N = 2` enabled items, applying
the navigator `N` times from "none" ends on item 1, while the first
application selected item 0 — the `N`-th application does not return to
the first-selected item (that takes `N + 1` applications). -/
theorem stepFocus_N_times_not_first :
    (stepFocus itemsTwo 1)^[2] none = some 1 ∧
    (stepFocus itemsTwo 1)^[1] none = some 0 ∧
    (stepFocus itemsTwo 1)^[2] none ≠ (stepFocus itemsTwo 1)^[1] none := by decide

/-- First application from "none": selects the head of the list. -/
lemma stepFocus_first {items : List MenuItem}
    (hall : ∀ it ∈ items, it.disabled = false) (hlen : 0 < items.length) :
    stepFocus items 1 none = some ((items.get ⟨0, hlen⟩).id) := by
  have hEn : enabledItems items = items := enabledItems_of_all_enabled hall
  have hne : ¬ items.length = 0 := by omega
  simp [stepFocus, focusNextItem, hEn, hne, List.getElem?_eq_getElem hlen]

/-- Successor step: from the item at index `i`, direction `+1` moves focus
to the item at index `(i + 1) % N`. -/
lemma stepFocus_succ {items : List MenuItem}
    (hall : ∀ it ∈ items, it.disabled = false)
    (hnd : (items.map MenuItem.id).Nodup)
    {i : Nat} (hi : i < items.length) :
    stepFocus items 1 (some ((items.get ⟨i, hi⟩).id)) =
      some ((items.get ⟨(i + 1) % items.length, Nat.mod_lt _ (by omega)⟩).id) := by
  have hEn : enabledItems items = items := enabledItems_of_all_enabled hall
  have hne : ¬ items.length = 0 := by omega
  have hilt : i < (items.map MenuItem.id).length := by simpa using hi
  have hidx : List.indexOf (items[i].id) (items.map MenuItem.id) = i := by
    have h := List.indexOf_getElem hnd i hilt
    simpa [List.getElem_map] using h
  have hmem : items[i].id ∈ items.map MenuItem.id :=
    List.mem_map_of_mem _ (List.getElem_mem hi)
  have hjs : jsIndexOf (items.map MenuItem.id) (items[i].id) = (i : Int) := by
    rw [jsIndexOf, if_pos hmem, hidx]
  have hneq : ¬ ((i : Int) = -1) := by omega
  have hcast : (i : Int) + 1 + (items.length : Int) =
      ((i + 1 + items.length : Nat) : Int) := by push_cast; ring
  have htmod : Int.tmod ((i : Int) + 1 + (items.length : Int)) ((items.length : Int)) =
      (((i + 1 + items.length) % items.length : Nat) : Int) := by rw [hcast]; rfl
  have hmod : (i + 1 + items.length) % items.length = (i + 1) % items.length :=
    Nat.add_mod_right (i + 1) items.length
  have hnlt : ¬ ((((i + 1) % items.length : Nat) : Int) < 0) := by omega
  have hlt : (i + 1) % items.length < items.length := Nat.mod_lt _ (by omega)
  simp only [stepFocus, focusNextItem, hEn, List.get_eq_getElem]
  rw [if_neg hne, hjs, if_neg hneq, htmod, hmod, if_neg hnlt, Int.toNat_ofNat,
    List.getElem?_eq_getElem hlt]

/-- Iterating from the head: after `k` further applications focus sits on
index `k % N`. -/
lemma stepFocus_iterate_cycle {items : List MenuItem}
    (hall : ∀ it ∈ items, it.disabled = false)
    (hnd : (items.map MenuItem.id).Nodup)
    (hlen : 0 < items.length) (k : Nat) :
    (stepFocus items 1)^[k] (some ((items.get ⟨0, hlen⟩).id)) =
      some ((items.get ⟨k % items.length, Nat.mod_lt _ hlen⟩).id) := by
  induction k with
  | zero => simp
  | succ n ih =>
      rw [Function.iterate_succ_apply', ih, stepFocus_succ hall hnd (Nat.mod_lt _ hlen)]
      simp [Nat.mod_add_mod]

/-- Claim C7, amended. On a list of `N ≥ 1` enabled items with distinct
identities, the first application from "none" selects the head item, and
`N` *further* applications of the navigator return focus to that same item
(equivalently, `N + 1` total applications from "none" end on the
first-selected item); `N` total applications end on index `N - 1`. -/
theorem stepFocus_cycle (items : List MenuItem)
    (hall : ∀ it ∈ items, it.disabled = false)
    (hnd : (items.map MenuItem.id).Nodup)
    (hlen : 0 < items.length) :
    (stepFocus items 1)^[items.length] (stepFocus items 1 none) =
      stepFocus items 1 none := by
  rw [stepFocus_first hall hlen, stepFocus_iterate_cycle hall hnd hlen]
  simp

/-- Witness for `stepFocus_cycle` on the two-item list: two further
applications after the first return focus to item 0. -/
theorem stepFocus_cycle_witness :
    (stepFocus itemsTwo 1)^[itemsTwo.length] (stepFocus itemsTwo 1 none) =
      stepFocus itemsTwo 1 none :=
  stepFocus_cycle itemsTwo (by decide) (by decide) (by decide)

end BSContextMenu
